import Mathlib

/-!
Verification of the rdk component abstraction core: the sensor RPC server
adapter, the reconfigurable base wrapper, the base `DoMove` helper, and the
servo RPC client adapter.  Go interfaces are embedded as Lean structures of
functions; Go `error` values are `Option String` (`none` = nil error) or
`Except String α` for value-or-error returns; machine integers are `Nat`/`Int`
with explicit `% 2 ^ w` at the conversions where the Go code narrows; the
float64 parameters the code merely forwards (it performs no float arithmetic
beyond comparison with zero) are embedded as `ℚ`.
-/

/-- Go `context.Context` values are threaded through every call unchanged by
the code under study; they are embedded as opaque tokens. -/
abbrev Ctx := Nat

/-- A string `s` contains `pat` as a substring. -/
def strContains (s pat : String) : Prop := ∃ pre suf : String, s = pre ++ (pat ++ suf)

/-! ## Sensor RPC server adapter -/

/-- A generic sensor: `Readings` either produces a list of reading values or
fails with an error message.  Reading values are opaque payloads, embedded
as rationals. -/
structure Sensor where
  readings : Ctx → Except String (List ℚ)

/-- A type-erased registry value: either a value satisfying the Sensor
contract, or some other value (such as the string `"notSensor"` in the
tests) that does not. -/
inductive SensorRegistryValue where
  | sensor (s : Sensor)
  | nonSensor (desc : String)

/-- Association-list lookup by short name in the sensor registry. -/
def sensorLookup : List (String × SensorRegistryValue) → String → Option SensorRegistryValue
  | [], _ => none
  | (k, v) :: rest, name => if k = name then some v else sensorLookup rest name

/-- Modelled from the spec: the sensor RPC server adapter (`sensor.NewServer`,
not under `src/`; only its test is).  Per spec §4.4 it (1) resolves the
request's short name in the subtype registry, (2) fails with a
ResourceNotFound-flavored error containing "no generic sensor" and the name
when absent, (3) fails with a "not a generic sensor" error when the resolved
value does not satisfy the Sensor contract, (4) otherwise invokes `Readings`
and surfaces its result, passing a domain error's original message through
intact. -/
def sensorServerReadings (registry : List (String × SensorRegistryValue))
    (ctx : Ctx) (name : String) : Except String (List ℚ) :=
  match sensorLookup registry name with
  | none => .error ("no generic sensor with name (" ++ (name ++ ")"))
  | some (.nonSensor _) =>
      .error ("resource with name (" ++ (name ++ ") is not a generic sensor"))
  | some (.sensor s) => s.readings ctx

/-- The registry of the concrete test scenario: sensor1 works and returns
[1.1, 2.2], sensor2 fails with "can't get readings", sensor3 is the
non-sensor string value, sensor4 is absent. -/
def c1Registry : List (String × SensorRegistryValue) :=
  [ ("sensor1", .sensor ⟨fun _ => .ok [11/10, 22/10]⟩),
    ("sensor2", .sensor ⟨fun _ => .error "can\x27t get readings"⟩),
    ("sensor3", .nonSensor "notSensor") ]

/-- Claim C1: over the registry mapping sensor1 to a working sensor returning
[1.1, 2.2], sensor2 to a sensor whose Readings errors with "can't get
readings", sensor3 to the non-sensor value "notSensor", and nothing for
sensor4: Readings(sensor1) succeeds with [1.1, 2.2]; Readings(sensor2) fails
with an error containing "can't get readings"; Readings(sensor3) fails with
an error containing "not a generic sensor"; Readings(sensor4) fails with an
error containing "no generic sensor". -/
theorem sensor_server_scenario :
    (∀ ctx, sensorServerReadings c1Registry ctx "sensor1" = .ok [11/10, 22/10]) ∧
    (∀ ctx, ∃ m, sensorServerReadings c1Registry ctx "sensor2" = .error m ∧
      strContains m "can\x27t get readings") ∧
    (∀ ctx, ∃ m, sensorServerReadings c1Registry ctx "sensor3" = .error m ∧
      strContains m "not a generic sensor") ∧
    (∀ ctx, ∃ m, sensorServerReadings c1Registry ctx "sensor4" = .error m ∧
      strContains m "no generic sensor") := by
  refine ⟨fun ctx => rfl, fun ctx => ?_, fun ctx => ?_, fun ctx => ?_⟩
  · exact ⟨"can\x27t get readings", rfl, "", "", rfl⟩
  · exact ⟨"resource with name (sensor3) is not a generic sensor", rfl,
      "resource with name (sensor3) is ", "", rfl⟩
  · exact ⟨"no generic sensor with name (sensor4)", rfl,
      "", " with name (sensor4)", rfl⟩

/-! ## Base component contract and reconfigurable wrapper -/

/-- A value satisfying the Base capability contract (the five domain methods),
together with the release behaviour `viamutils.TryClose` observes on it: the
error, if any, that closing this instance produces (`none` = close succeeds
or the instance has no close hook that can fail). -/
structure BaseImpl where
  moveStraight : Ctx → Int → ℚ → Bool → Option String
  moveArc : Ctx → Int → ℚ → ℚ → Bool → Option String
  spin : Ctx → ℚ → ℚ → Bool → Option String
  stop : Ctx → Option String
  widthGet : Ctx → Int × Option String
  tryClose : Ctx → Option String

/-- The reconfigurable base wrapper: a stable handle holding one live Base
instance (the Go struct's `actual` field; the RWMutex serializing swaps
against in-flight calls is the concurrency mechanism and has no sequential
content). -/
structure reconfigurableBase where
  actual : BaseImpl

/-- A type-erased `resource.Reconfigurable` value: either a reconfigurable
base wrapper, or a reconfigurable wrapper of some other subtype (carrying
the description Go's `%T` would print for it). -/
inductive Reconfigurable where
  | base (w : reconfigurableBase)
  | other (desc : String)

def reconfigurableBase.ProxyFor (r : reconfigurableBase) : BaseImpl :=
  r.actual

def reconfigurableBase.MoveStraight (r : reconfigurableBase)
    (ctx : Ctx) (distanceMillis : Int) (millisPerSec : ℚ) (block : Bool) : Option String :=
  r.actual.moveStraight ctx distanceMillis millisPerSec block

def reconfigurableBase.MoveArc (r : reconfigurableBase)
    (ctx : Ctx) (distanceMillis : Int) (millisPerSec degsPerSec : ℚ) (block : Bool) :
    Option String :=
  r.actual.moveArc ctx distanceMillis millisPerSec degsPerSec block

def reconfigurableBase.Spin (r : reconfigurableBase)
    (ctx : Ctx) (angleDeg degsPerSec : ℚ) (block : Bool) : Option String :=
  r.actual.spin ctx angleDeg degsPerSec block

def reconfigurableBase.Stop (r : reconfigurableBase) (ctx : Ctx) : Option String :=
  r.actual.stop ctx

def reconfigurableBase.WidthGet (r : reconfigurableBase) (ctx : Ctx) : Int × Option String :=
  r.actual.widthGet ctx

/-- The outcome of `reconfigurableBase.Reconfigure`: the wrapper state
afterwards, whether `TryClose` was invoked on the previously held instance,
the log messages emitted, and the returned error. -/
structure ReconfigureResult where
  state : reconfigurableBase
  closeCalled : Bool
  log : List String
  err : Option String

def reconfigurableBase.Reconfigure (r : reconfigurableBase) (ctx : Ctx)
    (newBase : Reconfigurable) : ReconfigureResult :=
  match newBase with
  | .other desc =>
      { state := r, closeCalled := false, log := [],
        err := some ("expected new arm to be *base.reconfigurableBase but got " ++ desc) }
  | .base actual =>
      { state := { actual := actual.actual },
        closeCalled := true,
        log := match r.actual.tryClose ctx with
               | some e => ["error closing old: " ++ e]
               | none => [],
        err := none }

/-- A type-erased `interface\x7b\x7d` argument to `WrapWithReconfigurable`:
a plain Base implementation, an already-wrapped reconfigurable base (which
also satisfies Base), or a value that does not satisfy Base at all. -/
inductive ResourceValue where
  | plainBase (b : BaseImpl)
  | wrapped (w : reconfigurableBase)
  | nonBase (desc : String)

def WrapWithReconfigurable : ResourceValue → Except String reconfigurableBase
  | .nonBase desc => .error ("expected resource to be Base but got " ++ desc)
  | .wrapped w => .ok w
  | .plainBase b => .ok { actual := b }

/-- A Move instruction: spin followed by moving straight. -/
structure Move where
  DistanceMillis : Int
  MillisPerSec : ℚ
  AngleDeg : ℚ
  DegsPerSec : ℚ
  Block : Bool

/-- One call DoMove issues at the Base boundary, with its arguments. -/
inductive BaseCall where
  | spinCall (angleDeg degsPerSec : ℚ) (block : Bool)
  | moveStraightCall (distanceMillis : Int) (millisPerSec : ℚ) (block : Bool)
deriving DecidableEq

/-- `DoMove`, instrumented with the ordered list of Base-boundary calls it
makes alongside the error it returns. -/
def DoMove (ctx : Ctx) (move : Move) (base : BaseImpl) : List BaseCall × Option String :=
  match if move.AngleDeg ≠ 0 then
      ([BaseCall.spinCall move.AngleDeg move.DegsPerSec move.Block],
       base.spin ctx move.AngleDeg move.DegsPerSec move.Block)
    else (([] : List BaseCall), (none : Option String)) with
  | (tr, some e) => (tr, some e)
  | (tr, none) =>
      if move.DistanceMillis ≠ 0 then
        (tr ++ [BaseCall.moveStraightCall move.DistanceMillis move.MillisPerSec move.Block],
         base.moveStraight ctx move.DistanceMillis move.MillisPerSec move.Block)
      else (tr, none)

/-! ## Theorems about the reconfigurable base wrapper -/

/-- Claim C2: reconfiguring a wrapper with any replacement that is not itself
a reconfigurable base wrapper of the same subtype returns a non-nil error,
leaves the held instance unchanged, never invokes the old instance's
release/close hook, and every subsequent domain call is still dispatched to
the original instance. -/
theorem reconfigure_mismatch_rejected (r : reconfigurableBase) (ctx : Ctx) (desc : String) :
    (∃ m, (r.Reconfigure ctx (.other desc)).err = some m) ∧
    (r.Reconfigure ctx (.other desc)).state = r ∧
    (r.Reconfigure ctx (.other desc)).closeCalled = false ∧
    (∀ c d s b, ((r.Reconfigure ctx (.other desc)).state).MoveStraight c d s b =
      r.actual.moveStraight c d s b) ∧
    (∀ c a d b, ((r.Reconfigure ctx (.other desc)).state).Spin c a d b =
      r.actual.spin c a d b) ∧
    (∀ c, ((r.Reconfigure ctx (.other desc)).state).Stop c = r.actual.stop c) :=
  ⟨⟨"expected new arm to be *base.reconfigurableBase but got " ++ desc, rfl⟩,
    rfl, rfl, fun _ _ _ _ => rfl, fun _ _ _ _ => rfl, fun _ => rfl⟩

/-- Claim C3: reconfiguring a wrapper with a same-subtype reconfigurable base
wrapper succeeds (nil error), and afterwards the held instance — as returned
by ProxyFor and as the target of every subsequent domain call — is the
replacement wrapper's instance. -/
theorem reconfigure_same_subtype_swaps (r w2 : reconfigurableBase) (ctx : Ctx) :
    (r.Reconfigure ctx (.base w2)).err = none ∧
    ((r.Reconfigure ctx (.base w2)).state).ProxyFor = w2.actual ∧
    (∀ c d s b, ((r.Reconfigure ctx (.base w2)).state).MoveStraight c d s b =
      w2.actual.moveStraight c d s b) ∧
    (∀ c d s g b, ((r.Reconfigure ctx (.base w2)).state).MoveArc c d s g b =
      w2.actual.moveArc c d s g b) ∧
    (∀ c a d b, ((r.Reconfigure ctx (.base w2)).state).Spin c a d b =
      w2.actual.spin c a d b) ∧
    (∀ c, ((r.Reconfigure ctx (.base w2)).state).Stop c = w2.actual.stop c) ∧
    (∀ c, ((r.Reconfigure ctx (.base w2)).state).WidthGet c = w2.actual.widthGet c) :=
  ⟨rfl, rfl, fun _ _ _ _ => rfl, fun _ _ _ _ _ => rfl, fun _ _ _ _ => rfl,
    fun _ => rfl, fun _ => rfl⟩

/-- Claim C4: when releasing the previous instance fails during a
same-subtype reconfiguration, the failure is logged and not returned:
Reconfigure still returns nil and the swap still commits. -/
theorem reconfigure_close_failure_absorbed (r w2 : reconfigurableBase) (ctx : Ctx)
    (e : String) (hfail : r.actual.tryClose ctx = some e) :
    (r.Reconfigure ctx (.base w2)).err = none ∧
    ((r.Reconfigure ctx (.base w2)).state).actual = w2.actual ∧
    (r.Reconfigure ctx (.base w2)).log = ["error closing old: " ++ e] := by
  refine ⟨rfl, rfl, ?_⟩
  simp [reconfigurableBase.Reconfigure, hfail]

/-- A concrete Base instance used to witness hypotheses: every domain method
succeeds and closing it fails with "close failed". -/
def failCloseBase : BaseImpl :=
  { moveStraight := fun _ _ _ _ => none
    moveArc := fun _ _ _ _ _ => none
    spin := fun _ _ _ _ => none
    stop := fun _ => none
    widthGet := fun _ => (600, none)
    tryClose := fun _ => some "close failed" }

/-- A concrete Base instance whose methods succeed and whose close succeeds. -/
def okBase : BaseImpl :=
  { moveStraight := fun _ _ _ _ => none
    moveArc := fun _ _ _ _ _ => none
    spin := fun _ _ _ _ => none
    stop := fun _ => none
    widthGet := fun _ => (450, none)
    tryClose := fun _ => none }

theorem reconfigure_close_failure_absorbed_witness :
    (reconfigurableBase.Reconfigure ⟨failCloseBase⟩ 0 (.base ⟨okBase⟩)).err = none ∧
    ((reconfigurableBase.Reconfigure ⟨failCloseBase⟩ 0 (.base ⟨okBase⟩)).state).actual = okBase ∧
    (reconfigurableBase.Reconfigure ⟨failCloseBase⟩ 0 (.base ⟨okBase⟩)).log =
      ["error closing old: " ++ "close failed"] :=
  reconfigure_close_failure_absorbed ⟨failCloseBase⟩ ⟨okBase⟩ 0 "close failed" rfl

/-- Claim C5: every domain method of the wrapper, called with any arguments,
returns exactly the result (value and error) of the same method on the held
instance with the same arguments, unmodified. -/
theorem wrapper_forwards_unmodified (r : reconfigurableBase) :
    (∀ ctx d s b, r.MoveStraight ctx d s b = r.actual.moveStraight ctx d s b) ∧
    (∀ ctx d s g b, r.MoveArc ctx d s g b = r.actual.moveArc ctx d s g b) ∧
    (∀ ctx a d b, r.Spin ctx a d b = r.actual.spin ctx a d b) ∧
    (∀ ctx, r.Stop ctx = r.actual.stop ctx) ∧
    (∀ ctx, r.WidthGet ctx = r.actual.widthGet ctx) :=
  ⟨fun _ _ _ _ => rfl, fun _ _ _ _ _ => rfl, fun _ _ _ _ => rfl,
    fun _ => rfl, fun _ => rfl⟩

/-- Claim C9: WrapWithReconfigurable returns an already-wrapped value
unchanged, wraps a plain Base implementation in a new wrapper holding it,
and rejects a value that does not satisfy the Base contract with a non-nil
error. -/
theorem wrap_with_reconfigurable_cases :
    (∀ w : reconfigurableBase, WrapWithReconfigurable (.wrapped w) = .ok w) ∧
    (∀ b : BaseImpl, WrapWithReconfigurable (.plainBase b) = .ok ⟨b⟩) ∧
    (∀ desc, ∃ m, WrapWithReconfigurable (.nonBase desc) = .error m) :=
  ⟨fun _ => rfl, fun _ => rfl,
    fun desc => ⟨"expected resource to be Base but got " ++ desc, rfl⟩⟩

/-- Claim C10: DoMove calls Spin only when AngleDeg is nonzero and
MoveStraight only when DistanceMillis is nonzero, always Spin first; a Spin
error is returned and suppresses the MoveStraight call; a zero-distance Move
never produces a MoveStraight call at all. -/
theorem doMove_call_discipline (ctx : Ctx) (move : Move) (base : BaseImpl) :
    (move.AngleDeg = 0 → ∀ a d b, BaseCall.spinCall a d b ∉ (DoMove ctx move base).1) ∧
    (move.DistanceMillis = 0 →
      ∀ d s b, BaseCall.moveStraightCall d s b ∉ (DoMove ctx move base).1) ∧
    (∀ e, move.AngleDeg ≠ 0 →
      base.spin ctx move.AngleDeg move.DegsPerSec move.Block = some e →
      DoMove ctx move base =
        ([BaseCall.spinCall move.AngleDeg move.DegsPerSec move.Block], some e)) ∧
    (∀ a d b d2 s2 b2, BaseCall.spinCall a d b ∈ (DoMove ctx move base).1 →
      BaseCall.moveStraightCall d2 s2 b2 ∈ (DoMove ctx move base).1 →
      (DoMove ctx move base).1 =
        [BaseCall.spinCall a d b, BaseCall.moveStraightCall d2 s2 b2]) := by
  by_cases h1 : move.AngleDeg = 0
  · refine ⟨?_, ?_, ?_, ?_⟩ <;> by_cases h2 : move.DistanceMillis = 0 <;>
      simp [DoMove, h1, h2]
  · cases hs : base.spin ctx move.AngleDeg move.DegsPerSec move.Block with
    | some e =>
        refine ⟨?_, ?_, ?_, ?_⟩ <;> simp [DoMove, h1, hs]
    | none =>
        refine ⟨?_, ?_, ?_, ?_⟩
        · simp [h1]
        · by_cases h2 : move.DistanceMillis = 0 <;> simp [DoMove, h1, hs, h2]
        · simp [hs]
        · by_cases h2 : move.DistanceMillis = 0 <;> simp [DoMove, h1, hs, h2]
          aesop

/-- A Base whose Spin fails with "spin failed" and whose other methods
succeed. -/
def failSpinBase : BaseImpl :=
  { moveStraight := fun _ _ _ _ => none
    moveArc := fun _ _ _ _ _ => none
    spin := fun _ _ _ _ => some "spin failed"
    stop := fun _ => none
    widthGet := fun _ => (450, none)
    tryClose := fun _ => none }

/-- A concrete Move asking for both a spin and a straight segment. -/
def demoMove : Move :=
  { DistanceMillis := 100, MillisPerSec := 2, AngleDeg := 90, DegsPerSec := 30, Block := true }

theorem doMove_call_discipline_witness :
    DoMove 0 demoMove failSpinBase =
      ([BaseCall.spinCall demoMove.AngleDeg demoMove.DegsPerSec demoMove.Block],
        some "spin failed") :=
  (doMove_call_discipline 0 demoMove failSpinBase).2.2.1 "spin failed" (by decide) rfl

/-! ## Servo RPC client adapter -/

/-- The uint32 modulus. -/
def UINT32 : Nat := 2 ^ 32

/-- The uint8 modulus. -/
def UINT8 : Nat := 2 ^ 8

/-- The wire request of `ServoService.Move`: a uint32 angle and the target
instance's short name. -/
structure ServoServiceMoveRequest where
  angleDeg : Nat
  name : String
deriving DecidableEq

/-- The wire request of `ServoService.AngularOffset`: the target instance's
short name. -/
structure ServoServiceAngularOffsetRequest where
  name : String
deriving DecidableEq

/-- The wire response of `ServoService.AngularOffset`: a uint32 angle. -/
structure ServoServiceAngularOffsetResponse where
  angleDeg : Nat

/-- The remote servo service endpoint the client's generated stub invokes:
each unary RPC either returns its response message or fails with an error. -/
structure ServoHandler where
  move : Ctx → ServoServiceMoveRequest → Except String Unit
  angularOffset : Ctx → ServoServiceAngularOffsetRequest →
    Except String ServoServiceAngularOffsetResponse

/-- Modelled from the spec: the RPC connection (`dialer.ClientConn`, an
external dependency of the adapter).  Per spec §3 and §4.3 it is an opaque
channel whose close is terminal and irreversible: closing an already-closed
connection performs no further underlying close, and a call issued over a
closed connection fails with a distinguishable "connection closed"
condition instead of hanging. -/
structure ClientConn where
  closed : Bool

/-- Close the connection; reports the new connection state, whether an
actual underlying close happened, and the returned error. -/
def ClientConn.closeConn (c : ClientConn) : ClientConn × Bool × Option String :=
  if c.closed then (c, false, none) else ({ closed := true }, true, none)

/-- Issue one unary RPC over the connection. -/
def ClientConn.unaryInvoke {α β : Type} (conn : ClientConn)
    (h : α → Except String β) (req : α) : Except String β :=
  if conn.closed then .error "connection closed: the client connection is closing"
  else h req

/-- The transport-level servo service client: a connection plus the typed
stub over it. -/
structure serviceClient where
  conn : ClientConn
  handler : ServoHandler

/-- `serviceClient.Close` forwards to the connection's close. -/
def serviceClient.Close (sc : serviceClient) : serviceClient × Bool × Option String :=
  match sc.conn.closeConn with
  | (c, did, e) => ({ sc with conn := c }, did, e)

/-- The servo client: the service client plus the resource's short instance
name. -/
structure client where
  sc : serviceClient
  name : String

/-- The request message `client.Move` builds: the uint8 domain angle widened
to the uint32 wire field, and the client's short name. -/
def moveRequest (c : client) (angle : Nat) : ServoServiceMoveRequest :=
  { angleDeg := angle % UINT32, name := c.name }

def client.Move (c : client) (ctx : Ctx) (angle : Nat) : Option String :=
  match c.sc.conn.unaryInvoke (c.sc.handler.move ctx) (moveRequest c angle) with
  | .error e => some e
  | .ok _ => none

def client.AngularOffset (c : client) (ctx : Ctx) : Except String Nat :=
  match c.sc.conn.unaryInvoke (c.sc.handler.angularOffset ctx) { name := c.name } with
  | .error e => .error e
  | .ok resp => .ok (resp.angleDeg % UINT8)

def client.Close (c : client) : client × Bool × Option String :=
  match c.sc.Close with
  | (sc2, did, e) => ({ c with sc := sc2 }, did, e)

/-- Claim C6: for every 32-bit wire angle the service returns, AngularOffset
narrows it to the domain 8-bit angle by the fixed truncation `% 2 ^ 8`,
producing a value below 256 and never failing, for all out-of-range wire
values including those above 255. -/
theorem angular_offset_narrowing (c : client) (ctx : Ctx) (wire : Nat)
    (_hwire : wire < UINT32) (hopen : c.sc.conn.closed = false)
    (hresp : c.sc.handler.angularOffset ctx { name := c.name } = .ok ⟨wire⟩) :
    client.AngularOffset c ctx = .ok (wire % UINT8) ∧ wire % UINT8 < UINT8 := by
  constructor
  · simp [client.AngularOffset, ClientConn.unaryInvoke, hopen, hresp]
  · exact Nat.mod_lt _ (by norm_num [UINT8])

/-- A remote servo endpoint whose AngularOffset always answers with the
given wire angle and whose Move always succeeds. -/
def demoHandler (wire : Nat) : ServoHandler :=
  { move := fun _ _ => .ok ()
    angularOffset := fun _ _ => .ok ⟨wire⟩ }

/-- A servo client over an open connection to `demoHandler wire`, built with
the short name "servo1". -/
def demoClient (wire : Nat) : client :=
  { sc := { conn := { closed := false }, handler := demoHandler wire }, name := "servo1" }

theorem angular_offset_narrowing_witness :
    client.AngularOffset (demoClient 1000) 0 = .ok (1000 % UINT8) ∧ 1000 % UINT8 < UINT8 :=
  angular_offset_narrowing (demoClient 1000) 0 1000 (by norm_num [UINT32]) rfl rfl

/-- Claim C7: the request message Move builds carries exactly the client's
short name and a wire angle equal to the 8-bit domain angle (the uint8 to
uint32 widening is lossless), and Move hands the stub exactly that message,
so the name and angle the service receives reproduce the caller's values. -/
theorem move_request_roundtrip (c : client) (ctx : Ctx) (a : Nat)
    (ha : a < UINT8) (hopen : c.sc.conn.closed = false) :
    (moveRequest c a).name = c.name ∧
    (moveRequest c a).angleDeg = a ∧
    client.Move c ctx a =
      (match c.sc.handler.move ctx { angleDeg := a, name := c.name } with
        | .error e => some e
        | .ok _ => none) := by
  have hlt : a < UINT32 := lt_trans ha (by norm_num [UINT8, UINT32])
  refine ⟨rfl, Nat.mod_eq_of_lt hlt, ?_⟩
  simp [client.Move, ClientConn.unaryInvoke, hopen, moveRequest, Nat.mod_eq_of_lt hlt]

theorem move_request_roundtrip_witness :
    (moveRequest (demoClient 0) 90).name = (demoClient 0).name ∧
    (moveRequest (demoClient 0) 90).angleDeg = 90 ∧
    client.Move (demoClient 0) 0 90 =
      (match (demoClient 0).sc.handler.move 0 { angleDeg := 90, name := (demoClient 0).name } with
        | .error e => some e
        | .ok _ => none) :=
  move_request_roundtrip (demoClient 0) 0 90 (by norm_num [UINT8]) rfl

/-- Claim C8: closing the client closes the underlying connection exactly
once even when Close is called twice, and after Close both Move and
AngularOffset fail with an error containing "connection closed". -/
theorem close_once_then_fail (c : client) (hopen : c.sc.conn.closed = false) :
    (c.Close).2.1 = true ∧
    (c.Close).2.2 = none ∧
    (((c.Close).1).Close).2.1 = false ∧
    (((c.Close).1).Close).2.2 = none ∧
    (∀ ctx a, ∃ m, client.Move ((c.Close).1) ctx a = some m ∧
      strContains m "connection closed") ∧
    (∀ ctx, ∃ m, client.AngularOffset ((c.Close).1) ctx = .error m ∧
      strContains m "connection closed") := by
  refine ⟨?_, ?_, ?_, ?_, ?_, ?_⟩
  · simp [client.Close, serviceClient.Close, ClientConn.closeConn, hopen]
  · simp [client.Close, serviceClient.Close, ClientConn.closeConn, hopen]
  · simp [client.Close, serviceClient.Close, ClientConn.closeConn, hopen]
  · simp [client.Close, serviceClient.Close, ClientConn.closeConn, hopen]
  · intro ctx a
    refine ⟨"connection closed: the client connection is closing", ?_,
      "", ": the client connection is closing", rfl⟩
    simp [client.Close, serviceClient.Close, ClientConn.closeConn, hopen,
      client.Move, ClientConn.unaryInvoke]
  · intro ctx
    refine ⟨"connection closed: the client connection is closing", ?_,
      "", ": the client connection is closing", rfl⟩
    simp [client.Close, serviceClient.Close, ClientConn.closeConn, hopen,
      client.AngularOffset, ClientConn.unaryInvoke]

theorem close_once_then_fail_witness :
    ((demoClient 0).Close).2.1 = true ∧
    ((demoClient 0).Close).2.2 = none ∧
    ((((demoClient 0).Close).1).Close).2.1 = false ∧
    ((((demoClient 0).Close).1).Close).2.2 = none ∧
    (∀ ctx a, ∃ m, client.Move (((demoClient 0).Close).1) ctx a = some m ∧
      strContains m "connection closed") ∧
    (∀ ctx, ∃ m, client.AngularOffset (((demoClient 0).Close).1) ctx = .error m ∧
      strContains m "connection closed") :=
  close_once_then_fail (demoClient 0) rfl
